import Mathlib

/-!
Verification of the lifecycle guard `Dissent::Utils::StartStop`
(src/src/Utils/StartStop.cpp) against its natural-language specification.

The guard holds two boolean flags, `started` and `stopped`. `Start()` and
`Stop()` are embedded as pure functions returning the boolean result paired
with the updated state; `DestructorCheck()` returns only the updated state.
-/

namespace Dissent
namespace Utils

/-- State of a `StartStop` guard: the two member flags `_started` and
`_stopped` of the C++ class. -/
structure StartStop where
  started : Bool
  stopped : Bool
  deriving DecidableEq, Repr

namespace StartStop

/-- The constructor `StartStop::StartStop()`: both flags false. -/
def init : StartStop := ⟨false, false⟩

/-- Modelled from the spec: the query `Started()` is declared in the header
`StartStop.hpp`, which is not part of the sources; per the spec it is a
plain read of the stored `started` flag. -/
def Started (s : StartStop) : Bool := s.started

/-- Modelled from the spec: the query `Stopped()` is declared in the header
`StartStop.hpp`, which is not part of the sources; per the spec it is a
plain read of the stored `stopped` flag. -/
def Stopped (s : StartStop) : Bool := s.stopped

/-- `StartStop::Start()`: if `_started || _stopped`, return false with no
change; otherwise set `_started = true` and return true. -/
def Start (s : StartStop) : Bool × StartStop :=
  if s.started || s.stopped then (false, s)
  else (true, { s with started := true })

/-- `StartStop::Stop()`: if `_stopped`, return false with no change;
otherwise set `_stopped = true` and return true. -/
def Stop (s : StartStop) : Bool × StartStop :=
  if s.stopped then (false, s)
  else (true, { s with stopped := true })

/-- `StartStop::DestructorCheck()`: if `!Stopped() && Started()`, call
`Stop()` (discarding its result). -/
def DestructorCheck (s : StartStop) : StartStop :=
  if !Stopped s && Started s then (Stop s).2 else s

/-- The operations a caller (or the teardown hook) may issue on a guard. -/
inductive Op
  | start
  | stop
  | dcheck
  deriving DecidableEq, Repr

/-- State after applying one operation. -/
def applyOp (s : StartStop) : Op → StartStop
  | .start => (Start s).2
  | .stop => (Stop s).2
  | .dcheck => DestructorCheck s

/-- Boolean result of one operation (`DestructorCheck` returns nothing). -/
def opResult (s : StartStop) : Op → Option Bool
  | .start => some (Start s).1
  | .stop => some (Stop s).1
  | .dcheck => none

/-- State after running a whole sequence of operations. -/
def run (s : StartStop) : List Op → StartStop
  | [] => s
  | o :: rest => run (applyOp s o) rest

/-- Number of `Start()` calls in a sequence that return `true`. -/
def startSuccCount (s : StartStop) : List Op → Nat
  | [] => 0
  | o :: rest =>
      (if o = .start ∧ opResult s o = some true then 1 else 0) +
        startSuccCount (applyOp s o) rest

/-- Number of `Stop()` calls in a sequence that return `true`. -/
def stopSuccCount (s : StartStop) : List Op → Nat
  | [] => 0
  | o :: rest =>
      (if o = .stop ∧ opResult s o = some true then 1 else 0) +
        stopSuccCount (applyOp s o) rest

end StartStop
end Utils
end Dissent

namespace Dissent.Utils.StartStop

/-! ## Helper lemmas -/

/-- Every operation preserves a true `started` flag. -/
theorem applyOp_started_mono (s : StartStop) (o : Op) (h : s.started = true) :
    (applyOp s o).started = true := by
  cases o <;>
    simp_all [applyOp, Start, Stop, DestructorCheck, Started, Stopped] <;>
    split <;> simp_all [Stop]

/-- Every operation preserves a true `stopped` flag. -/
theorem applyOp_stopped_mono (s : StartStop) (o : Op) (h : s.stopped = true) :
    (applyOp s o).stopped = true := by
  cases o <;>
    simp_all [applyOp, Start, Stop, DestructorCheck, Started, Stopped]

/-- Once `started` is true, no later `Start()` in the run succeeds. -/
theorem startSuccCount_zero (s : StartStop) (ops : List Op)
    (h : s.started = true) : startSuccCount s ops = 0 := by
  induction ops generalizing s with
  | nil => rfl
  | cons o rest ih =>
      have h2 := applyOp_started_mono s o h
      simp only [startSuccCount, ih _ h2, Nat.add_zero]
      cases o <;> simp_all [opResult, Start]

/-- Once `stopped` is true, no later `Stop()` in the run succeeds. -/
theorem stopSuccCount_zero (s : StartStop) (ops : List Op)
    (h : s.stopped = true) : stopSuccCount s ops = 0 := by
  induction ops generalizing s with
  | nil => rfl
  | cons o rest ih =>
      have h2 := applyOp_stopped_mono s o h
      simp only [stopSuccCount, ih _ h2, Nat.add_zero]
      cases o <;> simp_all [opResult, Stop]

/-- From any state, `Start()` succeeds at most once along any sequence. -/
theorem startSuccCount_le_one (s : StartStop) (ops : List Op) :
    startSuccCount s ops ≤ 1 := by
  induction ops generalizing s with
  | nil => exact Nat.zero_le 1
  | cons o rest ih =>
      by_cases hc : o = Op.start ∧ opResult s o = some true
      · have hs : (applyOp s o).started = true := by
          obtain ⟨ho, hr⟩ := hc
          subst ho
          simp only [opResult, Option.some.injEq] at hr
          simp only [applyOp]
          unfold Start at hr ⊢
          by_cases hg : s.started || s.stopped = true <;> simp_all
        obtain ⟨ho, hr⟩ := hc
        subst ho
        simp [startSuccCount, hr, startSuccCount_zero _ _ hs]
      · simpa [startSuccCount, hc] using ih (applyOp s o)

/-- From any state, `Stop()` succeeds at most once along any sequence. -/
theorem stopSuccCount_le_one (s : StartStop) (ops : List Op) :
    stopSuccCount s ops ≤ 1 := by
  induction ops generalizing s with
  | nil => exact Nat.zero_le 1
  | cons o rest ih =>
      by_cases hc : o = Op.stop ∧ opResult s o = some true
      · have hs : (applyOp s o).stopped = true := by
          obtain ⟨ho, hr⟩ := hc
          subst ho
          simp only [opResult, Option.some.injEq] at hr
          simp only [applyOp]
          unfold Stop at hr ⊢
          by_cases hg : s.stopped = true <;> simp_all
        obtain ⟨ho, hr⟩ := hc
        subst ho
        simp [stopSuccCount, hr, stopSuccCount_zero _ _ hs]
      · simpa [stopSuccCount, hc] using ih (applyOp s o)

end Dissent.Utils.StartStop

namespace Dissent.Utils.StartStop

/-! ## Claim theorems -/

/-- C1: `Start()` returns true and sets `started` to true exactly when the
guard is in state NotStarted (neither flag set); if `started` or `stopped`
is already true, `Start()` returns false and changes neither flag. -/
theorem start_spec (s : StartStop) :
    (s.started = false ∧ s.stopped = false →
      Start s = (true, { s with started := true })) ∧
    (s.started = true ∨ s.stopped = true → Start s = (false, s)) := by
  obtain ⟨a, b⟩ := s
  revert a b
  decide

/-- Witness for C1 at the fresh state and at an already-started state. -/
theorem start_spec_witness :
    Start init = (true, { init with started := true }) ∧
    Start ⟨true, false⟩ = (false, ⟨true, false⟩) :=
  ⟨(start_spec init).1 ⟨rfl, rfl⟩, (start_spec ⟨true, false⟩).2 (Or.inl rfl)⟩

/-- C2: `Stop()` returns true and sets `stopped` to true exactly when
`stopped` is not already true, independently of `started`; if `stopped` is
already true, `Stop()` returns false and changes neither flag. -/
theorem stop_spec (s : StartStop) :
    (s.stopped = false → Stop s = (true, { s with stopped := true })) ∧
    (s.stopped = true → Stop s = (false, s)) := by
  obtain ⟨a, b⟩ := s
  revert a b
  decide

/-- Witness for C2 at a started state and at a stopped state. -/
theorem stop_spec_witness :
    Stop ⟨true, false⟩ = (true, ⟨true, true⟩) ∧
    Stop ⟨false, true⟩ = (false, ⟨false, true⟩) :=
  ⟨(stop_spec ⟨true, false⟩).1 rfl, (stop_spec ⟨false, true⟩).2 rfl⟩

/-- C3: in any state reachable from a fresh guard in which `stopped` is
true, every subsequent `Start()`, `Stop()` or `DestructorCheck()` call
returns false (where applicable) and leaves both flags unchanged. -/
theorem stopped_terminal (ops : List Op)
    (h : (run init ops).stopped = true) :
    Start (run init ops) = (false, run init ops) ∧
    Stop (run init ops) = (false, run init ops) ∧
    DestructorCheck (run init ops) = run init ops := by
  generalize run init ops = s at h ⊢
  obtain ⟨a, b⟩ := s
  cases b
  · exact absurd h (by simp)
  · cases a <;> simp [Start, Stop, DestructorCheck, Started, Stopped]

/-- Witness for C3: after a single successful `Stop()`, the guard is
stopped and every further call is a no-op returning false. -/
theorem stopped_terminal_witness :
    Start (run init [Op.stop]) = (false, run init [Op.stop]) ∧
    Stop (run init [Op.stop]) = (false, run init [Op.stop]) ∧
    DestructorCheck (run init [Op.stop]) = run init [Op.stop] :=
  stopped_terminal [Op.stop] (by decide)

/-- C4: over every finite sequence of calls on a guard created in the
initial state, `Start()` returns true at most once and only from
NotStarted, and `Stop()` returns true at most once and never from
Stopped. -/
theorem succ_at_most_once (ops : List Op) (s : StartStop) :
    startSuccCount init ops ≤ 1 ∧ stopSuccCount init ops ≤ 1 ∧
    ((Start s).1 = true → s.started = false ∧ s.stopped = false) ∧
    ((Stop s).1 = true → s.stopped = false) := by
  refine ⟨startSuccCount_le_one init ops, stopSuccCount_le_one init ops,
    ?_, ?_⟩ <;>
  · obtain ⟨a, b⟩ := s
    revert a b
    decide

/-- Witness for C4 on a concrete sequence and the fresh state. -/
theorem succ_at_most_once_witness :
    (Start init).1 = true ∧ (Stop init).1 = true ∧
    startSuccCount init [Op.start, Op.start, Op.stop] ≤ 1 ∧
    stopSuccCount init [Op.start, Op.start, Op.stop] ≤ 1 ∧
    (init.started = false ∧ init.stopped = false) ∧
    init.stopped = false := by
  have h := succ_at_most_once [Op.start, Op.start, Op.stop] init
  exact ⟨by decide, by decide, h.1, h.2.1, h.2.2.1 (by decide),
    h.2.2.2 (by decide)⟩

/-- C5: no operation ever changes `started` or `stopped` from true back to
false; each flag is monotone over the lifetime of the guard. -/
theorem flags_monotonic (s : StartStop) (o : Op) :
    (s.started = true → (applyOp s o).started = true) ∧
    (s.stopped = true → (applyOp s o).stopped = true) :=
  ⟨applyOp_started_mono s o, applyOp_stopped_mono s o⟩

/-- Witness for C5 at concrete states and operations. -/
theorem flags_monotonic_witness :
    (applyOp ⟨true, false⟩ Op.stop).started = true ∧
    (applyOp ⟨false, true⟩ Op.start).stopped = true :=
  ⟨(flags_monotonic ⟨true, false⟩ Op.stop).1 rfl,
   (flags_monotonic ⟨false, true⟩ Op.start).2 rfl⟩

/-- C6: `DestructorCheck()` on a guard with `started` true and `stopped`
false leaves the guard Stopped; on a guard with both flags false it makes
no change, leaving the guard NotStarted. -/
theorem destructor_check_law :
    DestructorCheck ⟨true, false⟩ = ⟨true, true⟩ ∧
    DestructorCheck ⟨false, false⟩ = ⟨false, false⟩ := by
  decide

/-- C7: on a fresh guard, `Stop()` twice in a row returns (true, false);
on a fresh guard, `Start()` twice in a row returns (true, false). -/
theorem idempotence_pairs :
    ((Stop init).1, (Stop (Stop init).2).1) = (true, false) ∧
    ((Start init).1, (Start (Start init).2).1) = (true, false) := by
  decide

/-- C8: `Start()` and `Stop()` are total and signal failure only through a
false result; whenever the result is false, the state after the call is
identical to the state before it. -/
theorem failure_atomic (s : StartStop) :
    ((Start s).1 = false → (Start s).2 = s) ∧
    ((Stop s).1 = false → (Stop s).2 = s) := by
  obtain ⟨a, b⟩ := s
  revert a b
  decide

/-- Witness for C8 at a fully stopped state where both calls fail. -/
theorem failure_atomic_witness :
    (Start ⟨true, true⟩).2 = ⟨true, true⟩ ∧
    (Stop ⟨true, true⟩).2 = ⟨true, true⟩ :=
  ⟨(failure_atomic ⟨true, true⟩).1 rfl, (failure_atomic ⟨true, true⟩).2 rfl⟩

/-- C9: after `DestructorCheck()` the guard is never Started-but-not-
Stopped (`started` implies `stopped`), and `DestructorCheck()` is
idempotent. -/
theorem destructor_check_post (s : StartStop) :
    ((DestructorCheck s).started = true → (DestructorCheck s).stopped = true) ∧
    DestructorCheck (DestructorCheck s) = DestructorCheck s := by
  obtain ⟨a, b⟩ := s
  revert a b
  decide

/-- Witness for C9 at the started-but-not-stopped state. -/
theorem destructor_check_post_witness :
    (DestructorCheck ⟨true, false⟩).stopped = true ∧
    DestructorCheck (DestructorCheck ⟨true, false⟩) =
      DestructorCheck ⟨true, false⟩ :=
  ⟨(destructor_check_post ⟨true, false⟩).1 (by decide),
   (destructor_check_post ⟨true, false⟩).2⟩

/-- C10: `DestructorCheck()` on a guard in state NotStarted leaves the
guard unchanged, and a subsequent `Start()` still returns true and moves
the guard to Started. -/
theorem destructor_check_preserves_fresh (s : StartStop)
    (h1 : s.started = false) (h2 : s.stopped = false) :
    DestructorCheck s = s ∧
    Start (DestructorCheck s) = (true, ⟨true, false⟩) := by
  obtain ⟨a, b⟩ := s
  subst h1 h2
  decide

/-- Witness for C10 at the fresh state. -/
theorem destructor_check_preserves_fresh_witness :
    DestructorCheck init = init ∧
    Start (DestructorCheck init) = (true, ⟨true, false⟩) :=
  destructor_check_preserves_fresh init rfl rfl

end Dissent.Utils.StartStop
